import Mathlib

/-!
Shallow embedding of the language-detective core: the data model
(`src/src/models.py`), the metrics wrapper (`src/src/connectors/base.py`),
the coordinator (`src/src/coordinator.py`) and the deterministic mock
connectors plus cost estimators (`src/src/connectors/sarvam_mock.py`,
`openai_mock.py`, `gemini.py`).

Modelling conventions: a Python call that may raise an exception is a
function into `Except String _`, the exception's `str(e)` being the error
payload; wall-clock measurements (`time.time()` differences) are supplied
by oracle parameters of type `ℚ`; the file system (`os.path.getsize`) is an
oracle `String → Except String Nat`; Python `float` money amounts are
modelled as exact rationals.
-/

namespace LanguageDetective

/-- `ProviderStatus` from `models.py`: a three-valued enum with string values
"success", "failure", "error". -/
inductive ProviderStatus where
  | SUCCESS
  | FAILURE
  | ERROR
  deriving DecidableEq, Repr

/-- The `{"tokens": int, "dollars": float}` dict produced by every
`estimate_cost` implementation (the spec's Cost Estimate value type). -/
structure CostEstimate where
  tokens : Int
  dollars : ℚ
  deriving DecidableEq, Repr

/-- `ProviderResult` from `models.py` (the spec's Detection Outcome). -/
structure ProviderResult where
  provider_name : String
  detected_language : Option String
  time_taken : ℚ
  estimated_cost : CostEstimate
  status : ProviderStatus
  error_message : Option String
  deriving DecidableEq, Repr

/-- `LanguageDetectionResponse` from `models.py` (the spec's Aggregate
Response). -/
structure LanguageDetectionResponse where
  results : List ProviderResult
  total_time : ℚ
  successful_providers : Nat
  failed_providers : Nat
  deriving DecidableEq, Repr

/-- A provider connector (`BaseConnector` in `connectors/base.py`): a name
plus the two abstract capabilities.  `detect_language` may raise;
`estimate_cost` is modelled as fallible too, so that the behaviour of the
wrapper on a connector whose cost estimation raises is expressible (the
concrete connectors in the repository never fail it). -/
structure BaseConnector where
  provider_name : String
  detect_language : String → Except String String
  estimate_cost : String → Except String CostEstimate

/-- The `except Exception as e:` block of
`BaseConnector.execute_with_metrics` (`base.py` lines 40-50): build an
ERROR `ProviderResult`, calling `self.estimate_cost` again; that call is
NOT guarded, so its failure escapes the handler. -/
def exceptBlock (c : BaseConnector) (audio_file_path : String) (time_taken : ℚ)
    (e : String) : Except String ProviderResult :=
  match c.estimate_cost audio_file_path with
  | .ok cost =>
      .ok { provider_name := c.provider_name
            detected_language := none
            time_taken := time_taken
            estimated_cost := cost
            status := ProviderStatus.ERROR
            error_message := some e }
  | .error e2 => .error e2

/-- `BaseConnector.execute_with_metrics` (`base.py` lines 23-50).  The try
body runs `detect_language` and then, inside the success return expression,
`estimate_cost`; any exception from either lands in the except block.  In
this deterministic model a second call to `estimate_cost` returns the same
value as the first, so a failing `estimate_cost` inside the try body reaches
the handler and fails again there, exactly as re-raising its error. -/
def execute_with_metrics (c : BaseConnector) (audio_file_path : String)
    (time_taken : ℚ) : Except String ProviderResult :=
  match c.detect_language audio_file_path with
  | .ok detected_language =>
      match c.estimate_cost audio_file_path with
      | .ok cost =>
          .ok { provider_name := c.provider_name
                detected_language := some detected_language
                time_taken := time_taken
                estimated_cost := cost
                status := ProviderStatus.SUCCESS
                error_message := none }
      | .error e => exceptBlock c audio_file_path time_taken e
  | .error e => exceptBlock c audio_file_path time_taken e

/-- `LanguageDetectionCoordinator` (`coordinator.py`): its state is the
ordered provider registry built in `__init__`. -/
structure LanguageDetectionCoordinator where
  providers : List BaseConnector

/-- The `{"tokens": 0, "dollars": 0.0}` default the coordinator substitutes
for a provider whose wrapped call itself raised (`coordinator.py` line 44). -/
def zeroCost : CostEstimate := { tokens := 0, dollars := 0 }

/-- The body of the result-processing loop in
`detect_language_all_providers` (`coordinator.py` lines 37-50): an
exception gathered for provider `i` becomes an ERROR result named after
`self.providers[i]` with `time_taken=0.0` and the zero-cost default; a
normal wrapper result is kept as is. -/
def processOne (p : BaseConnector) (audio_file_path : String) (elapsed : ℚ) :
    ProviderResult :=
  match execute_with_metrics p audio_file_path elapsed with
  | .ok result => result
  | .error e =>
      { provider_name := p.provider_name
        detected_language := none
        time_taken := 0
        estimated_cost := zeroCost
        status := ProviderStatus.ERROR
        error_message := some e }

/-- `r.status == "success"` (`coordinator.py` line 55); `ProviderStatus` is
a str-enum so the comparison tests for the SUCCESS variant. -/
def statusIsSuccess : ProviderStatus → Bool
  | ProviderStatus.SUCCESS => true
  | _ => false

/-- `asyncio.gather` over `execute_with_metrics` tasks in registry order,
fused with the processing loop: position `i` of the output comes from
provider `i` with its measured elapsed time `tm i` (gather returns results
in task order, not completion order). -/
def gatherResults (audio_file_path : String) (tm : Nat → ℚ) :
    Nat → List BaseConnector → List ProviderResult
  | _, [] => []
  | i, p :: ps =>
      processOne p audio_file_path (tm i) :: gatherResults audio_file_path tm (i + 1) ps

/-- `LanguageDetectionCoordinator.detect_language_all_providers`
(`coordinator.py` lines 22-63).  `tm i` is the elapsed time measured inside
provider `i`'s wrapper, `total_time` the coordinator's own wall-clock
measurement. -/
def detect_language_all_providers (c : LanguageDetectionCoordinator)
    (audio_file_path : String) (tm : Nat → ℚ) (total_time : ℚ) :
    LanguageDetectionResponse :=
  let processed_results := gatherResults audio_file_path tm 0 c.providers
  let successful_providers := processed_results.countP (fun r => statusIsSuccess r.status)
  { results := processed_results
    total_time := total_time
    successful_providers := successful_providers
    failed_providers := processed_results.length - successful_providers }

/-- Observable outcome of `detect_language_single_provider`: the
`ValueError` raised on an unknown name, an exception escaping the wrapper,
or the returned `ProviderResult`. -/
inductive SingleProviderOutcome where
  | providerNotFound (msg : String)
  | raised (msg : String)
  | outcome (r : ProviderResult)
  deriving DecidableEq, Repr

/-- Embeds the wrapper's own result into `SingleProviderOutcome`. -/
def wrapSingle : Except String ProviderResult → SingleProviderOutcome
  | .ok r => SingleProviderOutcome.outcome r
  | .error e => SingleProviderOutcome.raised e

/-- `LanguageDetectionCoordinator.detect_language_single_provider`
(`coordinator.py` lines 65-72): `next(p for p in providers if
p.provider_name == provider_name)` is the first match; `None` raises
`ValueError`. -/
def detect_language_single_provider (c : LanguageDetectionCoordinator)
    (audio_file_path provider_name : String) (elapsed : ℚ) :
    SingleProviderOutcome :=
  match c.providers.find? (fun p => p.provider_name == provider_name) with
  | none => SingleProviderOutcome.providerNotFound ("Provider " ++ provider_name ++ " not found")
  | some p => wrapSingle (execute_with_metrics p audio_file_path elapsed)

/-- `LanguageDetectionCoordinator.get_available_providers`. -/
def get_available_providers (c : LanguageDetectionCoordinator) : List String :=
  c.providers.map (fun p => p.provider_name)

/-- `os.path.basename` on the POSIX paths the service uses: the part after
the last `/`. -/
def basename (p : String) : String := (p.splitOn "/").getLastD p

/-- Python's substring test `keyword in s` for the nonempty literal
keywords of the mock connectors: `s.splitOn keyword` has more than one
piece exactly when `keyword` occurs in `s`. -/
def containsKeyword (s keyword : String) : Bool :=
  decide (1 < (s.splitOn keyword).length)

/-- `round(x, n)` applied to the exact rational value of the Python
expression: round to `n` decimal places. -/
def roundTo (x : ℚ) (n : Nat) : ℚ := (round (x * 10 ^ n) : ℚ) / 10 ^ n

/-- `SarvamMockConnector.detect_language` (`sarvam_mock.py` lines 13-62):
keyword chain over the lowercased basename, defaulting to "en".  The
`asyncio.sleep(1.5)` has no observable effect in the model. -/
def sarvamMockDetect (audio_file_path : String) : String :=
  let file_name := (basename audio_file_path).toLower
  if containsKeyword file_name "hindi" then "hi"
  else if containsKeyword file_name "tamil" then "ta"
  else if containsKeyword file_name "telugu" then "te"
  else if containsKeyword file_name "kannada" then "kn"
  else if containsKeyword file_name "malayalam" then "ml"
  else if containsKeyword file_name "bengali" then "bn"
  else if containsKeyword file_name "marathi" then "mr"
  else if containsKeyword file_name "gujarati" then "gu"
  else if containsKeyword file_name "punjabi" then "pa"
  else if containsKeyword file_name "urdu" then "ur"
  else if containsKeyword file_name "sanskrit" then "sa"
  else if containsKeyword file_name "french" then "fr"
  else if containsKeyword file_name "german" then "de"
  else if containsKeyword file_name "spanish" then "es"
  else if containsKeyword file_name "chinese" then "zh"
  else if containsKeyword file_name "japanese" then "ja"
  else if containsKeyword file_name "korean" then "ko"
  else if containsKeyword file_name "arabic" then "ar"
  else if containsKeyword file_name "russian" then "ru"
  else "en"

/-- `OpenAIMockConnector.detect_language` (`openai_mock.py` lines 14-48):
the same keyword chain truncated after "sanskrit". -/
def openaiMockDetect (audio_file_path : String) : String :=
  let file_name := (basename audio_file_path).toLower
  if containsKeyword file_name "hindi" then "hi"
  else if containsKeyword file_name "tamil" then "ta"
  else if containsKeyword file_name "telugu" then "te"
  else if containsKeyword file_name "kannada" then "kn"
  else if containsKeyword file_name "malayalam" then "ml"
  else if containsKeyword file_name "bengali" then "bn"
  else if containsKeyword file_name "marathi" then "mr"
  else if containsKeyword file_name "gujarati" then "gu"
  else if containsKeyword file_name "punjabi" then "pa"
  else if containsKeyword file_name "urdu" then "ur"
  else if containsKeyword file_name "sanskrit" then "sa"
  else "en"

/-- `GeminiConnector.estimate_cost` (`gemini.py` lines 72-89): tokens =
`max(100, file_size // 4)`, dollars = `round(tokens * 0.0001, 6)`; on any
exception from `os.path.getsize` the documented default
`{"tokens": 100, "dollars": 0.01}`. -/
def geminiEstimateCost (getsize : String → Except String Nat)
    (audio_file_path : String) : CostEstimate :=
  match getsize audio_file_path with
  | .ok file_size =>
      let estimated_tokens : Int := max 100 ((file_size : Int) / 4)
      { tokens := estimated_tokens
        dollars := roundTo ((estimated_tokens : ℚ) * (1 / 10000)) 6 }
  | .error _ => { tokens := 100, dollars := 1 / 100 }

/-- `SarvamMockConnector.estimate_cost` (`sarvam_mock.py` lines 64-77):
tokens = `int(file_size / 100)`, dollars =
`round(file_size / (1024*1024) * 0.001, 6)`; on failure the default
`{"tokens": 100, "dollars": 0.001}`. -/
def sarvamMockEstimateCost (getsize : String → Except String Nat)
    (audio_file_path : String) : CostEstimate :=
  match getsize audio_file_path with
  | .ok file_size =>
      { tokens := (file_size / 100 : Nat)
        dollars := roundTo (((file_size : ℚ) / (1024 * 1024)) * (1 / 1000)) 6 }
  | .error _ => { tokens := 100, dollars := 1 / 1000 }

/-- `OpenAIMockConnector.estimate_cost` (`openai_mock.py` lines 50-67):
duration = `max(0.1, size/1MiB)`, tokens = `int(duration * 1000)`, dollars
= `round(duration * 0.006, 6)`; default `{"tokens": 1000, "dollars": 0.006}`. -/
def openaiMockEstimateCost (getsize : String → Except String Nat)
    (audio_file_path : String) : CostEstimate :=
  match getsize audio_file_path with
  | .ok file_size =>
      let duration_minutes : ℚ := max (1 / 10) ((file_size : ℚ) / (1024 * 1024))
      { tokens := Int.floor (duration_minutes * 1000)
        dollars := roundTo (duration_minutes * (6 / 1000)) 6 }
  | .error _ => { tokens := 1000, dollars := 6 / 1000 }

/-- `SarvamMockConnector` as a registrable connector: its `detect_language`
never raises and depends only on the path; `estimate_cost` never raises. -/
def sarvamMockConnector (getsize : String → Except String Nat) : BaseConnector where
  provider_name := "Sarvam AI (Mock)"
  detect_language := fun path => .ok (sarvamMockDetect path)
  estimate_cost := fun path => .ok (sarvamMockEstimateCost getsize path)

/-- `OpenAIMockConnector` as a registrable connector. -/
def openaiMockConnector (getsize : String → Except String Nat) : BaseConnector where
  provider_name := "OpenAI (Mock)"
  detect_language := fun path => .ok (openaiMockDetect path)
  estimate_cost := fun path => .ok (openaiMockEstimateCost getsize path)

/-- A registry holding the two deterministic stub providers. -/
def mockCoordinator (getsize : String → Except String Nat) :
    LanguageDetectionCoordinator :=
  { providers := [sarvamMockConnector getsize, openaiMockConnector getsize] }

/-- Zeroes the per-provider timing field. -/
def stripResultTiming (r : ProviderResult) : ProviderResult :=
  { r with time_taken := 0 }

/-- Zeroes every timing field of an aggregate response, keeping all
structural content (order, names, languages, statuses, messages, costs,
counts). -/
def stripResponseTiming (resp : LanguageDetectionResponse) :
    LanguageDetectionResponse :=
  { resp with results := resp.results.map stripResultTiming, total_time := 0 }

/-- A stub provider whose detection succeeds with "en" and whose cost
estimation always succeeds. -/
def stubEnConnector : BaseConnector where
  provider_name := "StubA"
  detect_language := fun _ => .ok "en"
  estimate_cost := fun _ => .ok { tokens := 100, dollars := 1 / 100 }

/-- A stub provider whose detection raises "network error" but whose cost
estimation succeeds. -/
def stubNetworkFailConnector : BaseConnector where
  provider_name := "StubB"
  detect_language := fun _ => .error "network error"
  estimate_cost := fun _ => .ok { tokens := 5, dollars := 0 }

/-- A stub provider whose detection succeeds yet whose cost estimation
raises. -/
def stubCostFailSuccessConnector : BaseConnector where
  provider_name := "StubC"
  detect_language := fun _ => .ok "en"
  estimate_cost := fun _ => .error "cost failure"

/-- A stub provider whose detection and cost estimation both raise. -/
def stubCostFailErrorConnector : BaseConnector where
  provider_name := "StubD"
  detect_language := fun _ => .error "network error"
  estimate_cost := fun _ => .error "cost failure"

theorem execute_ok_spec (c : BaseConnector) (a : String) (t : ℚ) (r : ProviderResult)
    (h : execute_with_metrics c a t = .ok r) :
    r.provider_name = c.provider_name ∧
    (r.detected_language.isSome ↔ r.status = ProviderStatus.SUCCESS) ∧
    (r.error_message.isSome ↔ r.status = ProviderStatus.ERROR) ∧
    (r.status = ProviderStatus.SUCCESS ∨ r.status = ProviderStatus.ERROR) := by
  unfold execute_with_metrics exceptBlock at h
  split at h
  · split at h
    · injection h with h
      subst h
      simp
    · split at h
      · injection h with h
        subst h
        simp
      · simp at h
  · split at h
    · injection h with h
      subst h
      simp
    · simp at h

theorem processOne_spec (p : BaseConnector) (a : String) (e : ℚ) :
    (processOne p a e).provider_name = p.provider_name ∧
    ((processOne p a e).detected_language.isSome ↔
      (processOne p a e).status = ProviderStatus.SUCCESS) ∧
    ((processOne p a e).error_message.isSome ↔
      (processOne p a e).status = ProviderStatus.ERROR) ∧
    ((processOne p a e).status = ProviderStatus.SUCCESS ∨
      (processOne p a e).status = ProviderStatus.ERROR) := by
  cases hw : execute_with_metrics p a e with
  | ok res =>
      have hs := execute_ok_spec p a e res hw
      simpa [processOne, hw] using hs
  | error msg => simp [processOne, hw]

theorem gatherResults_map_name (a : String) (tm : Nat → ℚ) (i : Nat)
    (ps : List BaseConnector) :
    (gatherResults a tm i ps).map ProviderResult.provider_name
      = ps.map BaseConnector.provider_name := by
  induction ps generalizing i with
  | nil => rfl
  | cons p ps ih =>
      simp [gatherResults, (processOne_spec p a (tm i)).1, ih]

theorem gatherResults_length (a : String) (tm : Nat → ℚ) (i : Nat)
    (ps : List BaseConnector) :
    (gatherResults a tm i ps).length = ps.length := by
  have h := congrArg List.length (gatherResults_map_name a tm i ps)
  simpa using h

theorem mem_gatherResults (a : String) (tm : Nat → ℚ) (i : Nat)
    (ps : List BaseConnector) (r : ProviderResult)
    (h : r ∈ gatherResults a tm i ps) :
    ∃ p el, p ∈ ps ∧ r = processOne p a el := by
  induction ps generalizing i with
  | nil => simp [gatherResults] at h
  | cons p ps ih =>
      rw [gatherResults] at h
      rcases List.mem_cons.mp h with hh | ht
      · exact ⟨p, tm i, List.mem_cons_self _ _, hh⟩
      · obtain ⟨q, el, hq, hr⟩ := ih (i + 1) ht
        exact ⟨q, el, List.mem_cons_of_mem _ hq, hr⟩

theorem find_first_match (nm : String) (l : List BaseConnector)
    (hnd : (l.map BaseConnector.provider_name).Nodup) (p : BaseConnector)
    (hp : p ∈ l) (hname : p.provider_name = nm) :
    l.find? (fun q => q.provider_name == nm) = some p := by
  induction l with
  | nil => cases hp
  | cons q qs ih =>
      simp only [List.map_cons, List.nodup_cons] at hnd
      rcases List.mem_cons.mp hp with rfl | hmem
      · exact List.find?_cons_of_pos _ (by simp [hname])
      · by_cases hq : q.provider_name = nm
        · exact absurd (by
            rw [hq, ← hname]
            exact List.mem_map_of_mem _ hmem) hnd.1
        · rw [List.find?_cons_of_neg _ (by simp [hq])]
          exact ih hnd.2 hmem

/-- C1: for every provider whose `estimate_cost` abides by the Provider
contract (it never raises), `execute_with_metrics` returns a
`ProviderResult` — never a raised fault — with a SUCCESS outcome when
`detect_language` returns normally and an ERROR outcome when it raises. -/
theorem C1_wrapper_never_propagates (p : BaseConnector) (a : String) (el : ℚ)
    (hcost : ∀ x : String, (p.estimate_cost x).isOk = true) :
    ∃ r : ProviderResult, execute_with_metrics p a el = .ok r ∧
      (∀ lang, p.detect_language a = .ok lang →
        r.status = ProviderStatus.SUCCESS ∧ r.detected_language = some lang) ∧
      (∀ msg, p.detect_language a = .error msg →
        r.status = ProviderStatus.ERROR ∧ r.error_message = some msg) := by
  have hc := hcost a
  cases hce : p.estimate_cost a with
  | error e =>
      rw [hce] at hc
      exact absurd hc (Bool.noConfusion)
  | ok cost =>
      cases hd : p.detect_language a with
      | ok lang =>
          refine ⟨⟨p.provider_name, some lang, el, cost, ProviderStatus.SUCCESS, none⟩,
            ?_, ?_, ?_⟩
          · unfold execute_with_metrics
            rw [hd, hce]
          · intro l hl
            injection hl with hl
            subst hl
            exact ⟨rfl, rfl⟩
          · intro m hm
            simp at hm
      | error msg =>
          refine ⟨⟨p.provider_name, none, el, cost, ProviderStatus.ERROR, some msg⟩,
            ?_, ?_, ?_⟩
          · unfold execute_with_metrics exceptBlock
            rw [hd, hce]
          · intro l hl
            simp at hl
          · intro m hm
            injection hm with hm
            subst hm
            exact ⟨rfl, rfl⟩

/-- C1 witness: the wrapper applied to a concrete non-failing stub returns
a `ProviderResult` value. -/
theorem C1_wrapper_never_propagates_witness :
    (execute_with_metrics stubEnConnector "audio.wav" (1 / 2)).isOk = true := by
  obtain ⟨r, hr, -, -⟩ :=
    C1_wrapper_never_propagates stubEnConnector "audio.wav" (1 / 2) (fun _ => rfl)
  rw [hr]
  rfl

/-- C2: `detect_language_all_providers` returns one outcome per registered
provider, carrying the provider names in registry order; under the
registry's name-uniqueness requirement each name appears exactly once. -/
theorem C2_detect_all_registry_order (c : LanguageDetectionCoordinator)
    (a : String) (tm : Nat → ℚ) (total : ℚ) :
    (detect_language_all_providers c a tm total).results.length = c.providers.length ∧
    (detect_language_all_providers c a tm total).results.map ProviderResult.provider_name
      = c.providers.map BaseConnector.provider_name ∧
    ((c.providers.map BaseConnector.provider_name).Nodup →
      ∀ nm ∈ (detect_language_all_providers c a tm total).results.map
          ProviderResult.provider_name,
        ((detect_language_all_providers c a tm total).results.map
          ProviderResult.provider_name).count nm = 1) := by
  refine ⟨?_, ?_, ?_⟩
  · simpa [detect_language_all_providers] using gatherResults_length a tm 0 c.providers
  · simpa [detect_language_all_providers] using gatherResults_map_name a tm 0 c.providers
  · intro hnd nm hnm
    have hmap : (detect_language_all_providers c a tm total).results.map
        ProviderResult.provider_name = c.providers.map BaseConnector.provider_name := by
      simpa [detect_language_all_providers] using gatherResults_map_name a tm 0 c.providers
    rw [hmap] at hnm ⊢
    exact List.count_eq_one_of_mem hnd hnm

/-- C2 witness: with a concrete two-provider registry of distinct names,
the name of the first stub appears exactly once among the outcomes. -/
theorem C2_detect_all_registry_order_witness :
    ((detect_language_all_providers
        { providers := [stubEnConnector, stubNetworkFailConnector] } "a.wav"
        (fun _ => 0) 0).results.map ProviderResult.provider_name).count "StubA" = 1 := by
  have h := C2_detect_all_registry_order
    { providers := [stubEnConnector, stubNetworkFailConnector] } "a.wav" (fun _ => 0) 0
  refine h.2.2 ?_ "StubA" ?_
  · decide
  · rw [h.2.1]
    decide

/-- C4: in every aggregate response, `successful_providers` counts the
SUCCESS outcomes and, together with `failed_providers`, adds up to the
number of results. -/
theorem C4_counts_invariant (c : LanguageDetectionCoordinator) (a : String)
    (tm : Nat → ℚ) (total : ℚ) :
    (detect_language_all_providers c a tm total).successful_providers
      = (detect_language_all_providers c a tm total).results.countP
          (fun r => decide (r.status = ProviderStatus.SUCCESS)) ∧
    (detect_language_all_providers c a tm total).successful_providers
      + (detect_language_all_providers c a tm total).failed_providers
      = (detect_language_all_providers c a tm total).results.length := by
  have hpred : ∀ s : ProviderStatus,
      statusIsSuccess s = decide (s = ProviderStatus.SUCCESS) := by
    intro s
    cases s <;> rfl
  constructor
  · simp only [detect_language_all_providers]
    exact List.countP_congr (fun r _ => by rw [hpred r.status])
  · simp only [detect_language_all_providers]
    exact Nat.add_sub_cancel' (List.countP_le_length _)

/-- C5: every outcome the system constructs — any aggregate result and any
result returned by the wrapper — has `detected_language` present iff its
status is SUCCESS and `error_message` present iff its status is ERROR. -/
theorem C5_outcome_field_invariant (c : LanguageDetectionCoordinator) (a : String)
    (tm : Nat → ℚ) (total el : ℚ) (p : BaseConnector) (r : ProviderResult) :
    (r ∈ (detect_language_all_providers c a tm total).results →
      ((r.detected_language.isSome ↔ r.status = ProviderStatus.SUCCESS) ∧
        (r.error_message.isSome ↔ r.status = ProviderStatus.ERROR))) ∧
    (execute_with_metrics p a el = .ok r →
      ((r.detected_language.isSome ↔ r.status = ProviderStatus.SUCCESS) ∧
        (r.error_message.isSome ↔ r.status = ProviderStatus.ERROR))) := by
  constructor
  · intro hmem
    simp only [detect_language_all_providers] at hmem
    obtain ⟨q, el2, -, hr⟩ := mem_gatherResults a tm 0 c.providers r hmem
    subst hr
    exact ⟨(processOne_spec q a el2).2.1, (processOne_spec q a el2).2.2.1⟩
  · intro hok
    exact ⟨(execute_ok_spec p a el r hok).2.1, (execute_ok_spec p a el r hok).2.2.1⟩

/-- C5 witness: the invariant holds for the concrete SUCCESS outcome the
single-stub registry produces. -/
theorem C5_outcome_field_invariant_witness :
    ((⟨"StubA", some "en", 0, ⟨100, 1 / 100⟩, ProviderStatus.SUCCESS, none⟩ :
        ProviderResult).detected_language.isSome ↔
      (⟨"StubA", some "en", 0, ⟨100, 1 / 100⟩, ProviderStatus.SUCCESS, none⟩ :
        ProviderResult).status = ProviderStatus.SUCCESS) ∧
    ((⟨"StubA", some "en", 0, ⟨100, 1 / 100⟩, ProviderStatus.SUCCESS, none⟩ :
        ProviderResult).error_message.isSome ↔
      (⟨"StubA", some "en", 0, ⟨100, 1 / 100⟩, ProviderStatus.SUCCESS, none⟩ :
        ProviderResult).status = ProviderStatus.ERROR) :=
  (C5_outcome_field_invariant { providers := [stubEnConnector] } "a.wav"
      (fun _ => 0) 0 0 stubEnConnector
      ⟨"StubA", some "en", 0, ⟨100, 1 / 100⟩, ProviderStatus.SUCCESS, none⟩).2 rfl

/-- C6: `detect_language_all_providers` is a total function of the registry
and input: whatever the providers do — including raising in both
capabilities — it returns a response enumerating every registered provider
name in order, each with a definitive SUCCESS-or-ERROR status. -/
theorem C6_detect_all_never_fails (c : LanguageDetectionCoordinator) (a : String)
    (tm : Nat → ℚ) (total : ℚ) :
    (detect_language_all_providers c a tm total).results.map ProviderResult.provider_name
      = c.providers.map BaseConnector.provider_name ∧
    ∀ r ∈ (detect_language_all_providers c a tm total).results,
      r.status = ProviderStatus.SUCCESS ∨ r.status = ProviderStatus.ERROR := by
  constructor
  · simpa [detect_language_all_providers] using gatherResults_map_name a tm 0 c.providers
  · intro r hmem
    simp only [detect_language_all_providers] at hmem
    obtain ⟨q, el2, -, hr⟩ := mem_gatherResults a tm 0 c.providers r hmem
    subst hr
    exact (processOne_spec q a el2).2.2.2

/-- C6 witness: the outcome produced for a provider whose detection raises
still carries a definitive status. -/
theorem C6_detect_all_never_fails_witness :
    (⟨"StubB", none, 0, ⟨5, 0⟩, ProviderStatus.ERROR, some "network error"⟩ :
        ProviderResult).status = ProviderStatus.SUCCESS ∨
    (⟨"StubB", none, 0, ⟨5, 0⟩, ProviderStatus.ERROR, some "network error"⟩ :
        ProviderResult).status = ProviderStatus.ERROR :=
  (C6_detect_all_never_fails { providers := [stubNetworkFailConnector] } "a.wav"
      (fun _ => 0) 0).2
    ⟨"StubB", none, 0, ⟨5, 0⟩, ProviderStatus.ERROR, some "network error"⟩
    (by simp [detect_language_all_providers, gatherResults, processOne,
      execute_with_metrics, exceptBlock, stubNetworkFailConnector])

/-- C7: `detect_language_single_provider` raises the ProviderNotFound
condition exactly when no registered provider carries the requested name;
with unique registry names, a matching provider makes it behave as the
metrics wrapper on that provider. -/
theorem C7_single_provider_lookup (c : LanguageDetectionCoordinator)
    (a nm : String) (el : ℚ) :
    ((detect_language_single_provider c a nm el
        = SingleProviderOutcome.providerNotFound ("Provider " ++ nm ++ " not found"))
      ↔ ∀ p ∈ c.providers, p.provider_name ≠ nm) ∧
    (∀ p : BaseConnector, (c.providers.map BaseConnector.provider_name).Nodup →
      p ∈ c.providers → p.provider_name = nm →
      detect_language_single_provider c a nm el
        = wrapSingle (execute_with_metrics p a el)) := by
  constructor
  · unfold detect_language_single_provider
    cases hf : c.providers.find? (fun p => p.provider_name == nm) with
    | none =>
        rw [List.find?_eq_none] at hf
        simp only [true_iff]
        intro p hp
        have := hf p hp
        simpa using this
    | some p =>
        have hmem := List.mem_of_find?_eq_some hf
        have hpn : p.provider_name = nm := by
          have := List.find?_some hf
          simpa using this
        constructor
        · intro hcontra
          exact absurd hcontra (by cases hw : execute_with_metrics p a el <;> simp [wrapSingle, hw])
        · intro hall
          exact absurd hpn (hall p hmem)
  · intro p hnd hp hpn
    unfold detect_language_single_provider
    rw [find_first_match nm c.providers hnd p hp hpn]

/-- C7 witness: an unregistered name yields the ProviderNotFound condition,
and a registered one yields exactly the wrapper's outcome. -/
theorem C7_single_provider_lookup_witness :
    detect_language_single_provider { providers := [stubEnConnector] } "a.wav" "Nope" 0
      = SingleProviderOutcome.providerNotFound "Provider Nope not found" ∧
    detect_language_single_provider
        { providers := [stubEnConnector, stubNetworkFailConnector] } "a.wav" "StubB" 0
      = wrapSingle (execute_with_metrics stubNetworkFailConnector "a.wav" 0) :=
  ⟨(C7_single_provider_lookup { providers := [stubEnConnector] } "a.wav" "Nope" 0).1.mpr
      (by decide),
    (C7_single_provider_lookup { providers := [stubEnConnector, stubNetworkFailConnector] }
        "a.wav" "StubB" 0).2 stubNetworkFailConnector (by decide) (by simp) rfl⟩

/-- C8: the Gemini and Sarvam-mock cost estimators are total functions that
fall back to their documented defaults when the file size read fails, and
still return a cost estimate on a zero-byte file. -/
theorem C8_estimate_cost_never_raises (getsize : String → Except String Nat)
    (path e : String) :
    (getsize path = .error e →
      geminiEstimateCost getsize path = ⟨100, 1 / 100⟩ ∧
      sarvamMockEstimateCost getsize path = ⟨100, 1 / 1000⟩) ∧
    (getsize path = .ok 0 →
      geminiEstimateCost getsize path = ⟨100, 1 / 100⟩ ∧
      sarvamMockEstimateCost getsize path = ⟨0, 0⟩) := by
  constructor
  · intro hf
    constructor
    · simp [geminiEstimateCost, hf]
    · simp [sarvamMockEstimateCost, hf]
  · intro hf
    constructor
    · simp only [geminiEstimateCost, hf]
      norm_num [roundTo, round_eq]
    · simp only [sarvamMockEstimateCost, hf]
      norm_num [roundTo, round_eq]

/-- C8 witness: a concrete unreadable-size oracle yields the documented
defaults from both estimators. -/
theorem C8_estimate_cost_never_raises_witness :
    geminiEstimateCost (fun _ => .error "no size") "a.wav" = ⟨100, 1 / 100⟩ ∧
    sarvamMockEstimateCost (fun _ => .error "no size") "a.wav" = ⟨100, 1 / 1000⟩ :=
  (C8_estimate_cost_never_raises (fun _ => .error "no size") "a.wav" "no size").1 rfl

/-- C9: with the deterministic mock registry, two `detect_all` calls on the
same path — whatever elapsed times the clock oracles report on either run —
yield structurally identical aggregate responses once the timing fields are
stripped. -/
theorem C9_detect_all_idempotent (getsize : String → Except String Nat)
    (path : String) (tm1 tm2 : Nat → ℚ) (t1 t2 : ℚ) :
    stripResponseTiming
        (detect_language_all_providers (mockCoordinator getsize) path tm1 t1)
      = stripResponseTiming
        (detect_language_all_providers (mockCoordinator getsize) path tm2 t2) := rfl

/-- C10: although `ProviderStatus` has a third FAILURE variant, no outcome
constructed by the wrapper, by `detect_all`, or by the single-provider path
ever carries it. -/
theorem C10_failure_status_unused (c : LanguageDetectionCoordinator)
    (a nm : String) (tm : Nat → ℚ) (total el : ℚ) (p : BaseConnector)
    (r r2 : ProviderResult) :
    (execute_with_metrics p a el = .ok r → r.status ≠ ProviderStatus.FAILURE) ∧
    (∀ r3 ∈ (detect_language_all_providers c a tm total).results,
      r3.status ≠ ProviderStatus.FAILURE) ∧
    (detect_language_single_provider c a nm el = SingleProviderOutcome.outcome r2 →
      r2.status ≠ ProviderStatus.FAILURE) := by
  refine ⟨?_, ?_, ?_⟩
  · intro hok
    rcases (execute_ok_spec p a el r hok).2.2.2 with hs | hs <;> simp [hs]
  · intro r3 hmem
    simp only [detect_language_all_providers] at hmem
    obtain ⟨q, el2, -, hr⟩ := mem_gatherResults a tm 0 c.providers r3 hmem
    subst hr
    rcases (processOne_spec q a el2).2.2.2 with hs | hs <;> simp [hs]
  · intro hout
    unfold detect_language_single_provider at hout
    cases hf : c.providers.find? (fun q => q.provider_name == nm) with
    | none => rw [hf] at hout; simp at hout
    | some q =>
        rw [hf] at hout
        dsimp only at hout
        cases hw : execute_with_metrics q a el with
        | ok res =>
            rw [hw] at hout
            have hres : res = r2 := by simpa [wrapSingle] using hout
            subst hres
            rcases (execute_ok_spec q a el res hw).2.2.2 with hs | hs <;> simp [hs]
        | error msg => rw [hw] at hout; simp [wrapSingle] at hout

/-- C10 witness: the concrete ERROR outcome the wrapper returns for the
raising stub does not carry the FAILURE status. -/
theorem C10_failure_status_unused_witness :
    (⟨"StubB", none, 0, ⟨5, 0⟩, ProviderStatus.ERROR, some "network error"⟩ :
        ProviderResult).status ≠ ProviderStatus.FAILURE :=
  (C10_failure_status_unused { providers := [] } "a.wav" "StubB" (fun _ => 0) 0 0
      stubNetworkFailConnector
      ⟨"StubB", none, 0, ⟨5, 0⟩, ProviderStatus.ERROR, some "network error"⟩
      ⟨"StubB", none, 0, ⟨5, 0⟩, ProviderStatus.ERROR, some "network error"⟩).1 rfl

/-- C3 counterexample: a provider whose detection succeeds but whose cost
estimation raises.  The wrapper escalates the cost-estimation failure
instead of substituting a default (conjuncts 2 and 4), and the aggregate
outcome for the successfully-detecting provider is ERROR (conjunct 3) — so
a cost-estimation failure is escalated by the wrapper and turns a
successful detection into an ERROR outcome, contrary to the claim. -/
theorem C3_cost_failure_counterexample :
    stubCostFailSuccessConnector.detect_language "a.wav" = .ok "en" ∧
    execute_with_metrics stubCostFailSuccessConnector "a.wav" 0 = .error "cost failure" ∧
    (detect_language_all_providers { providers := [stubCostFailSuccessConnector] }
        "a.wav" (fun _ => 0) 0).results.map ProviderResult.status
      = [ProviderStatus.ERROR] ∧
    execute_with_metrics stubCostFailErrorConnector "a.wav" 0 = .error "cost failure" :=
  ⟨rfl, rfl, rfl, rfl⟩

/-- C3 amended: when detection fails the wrapper still calls
`estimate_cost` and embeds its estimate in the ERROR outcome; but when
`estimate_cost` itself fails, the wrapper escalates that failure, and it is
`detect_language_all_providers` that substitutes the zero-cost default into
an ERROR outcome — so no failure escapes `detect_all`, while a
cost-estimation failure does yield an ERROR outcome even after a
successful detection. -/
theorem C3_cost_failure_handling (p : BaseConnector) (a : String) (el : ℚ)
    (tm : Nat → ℚ) (total : ℚ) :
    (∀ e cost, p.detect_language a = .error e → p.estimate_cost a = .ok cost →
      execute_with_metrics p a el
        = .ok ⟨p.provider_name, none, el, cost, ProviderStatus.ERROR, some e⟩) ∧
    (∀ e2, p.estimate_cost a = .error e2 →
      execute_with_metrics p a el = .error e2) ∧
    (∀ e2, p.estimate_cost a = .error e2 →
      (detect_language_all_providers { providers := [p] } a tm total).results
        = [⟨p.provider_name, none, 0, zeroCost, ProviderStatus.ERROR, some e2⟩]) := by
  refine ⟨?_, ?_, ?_⟩
  · intro e cost hd hc
    unfold execute_with_metrics exceptBlock
    rw [hd, hc]
  · intro e2 hc
    unfold execute_with_metrics exceptBlock
    cases hd : p.detect_language a with
    | ok lang => rw [hc]
    | error e => rw [hc]
  · intro e2 hc
    have hw : execute_with_metrics p a (tm 0) = .error e2 := by
      unfold execute_with_metrics exceptBlock
      cases hd : p.detect_language a with
      | ok lang => rw [hc]
      | error e => rw [hc]
    simp [detect_language_all_providers, gatherResults, processOne, hw, zeroCost]

/-- C3 amended witness: concrete stubs exercising all three clauses. -/
theorem C3_cost_failure_handling_witness :
    execute_with_metrics stubNetworkFailConnector "a.wav" 0
      = .ok ⟨"StubB", none, 0, ⟨5, 0⟩, ProviderStatus.ERROR, some "network error"⟩ ∧
    execute_with_metrics stubCostFailErrorConnector "a.wav" 0 = .error "cost failure" ∧
    (detect_language_all_providers { providers := [stubCostFailErrorConnector] }
        "a.wav" (fun _ => 0) 0).results
      = [⟨"StubD", none, 0, zeroCost, ProviderStatus.ERROR, some "cost failure"⟩] :=
  ⟨(C3_cost_failure_handling stubNetworkFailConnector "a.wav" 0 (fun _ => 0) 0).1
      "network error" ⟨5, 0⟩ rfl rfl,
    (C3_cost_failure_handling stubCostFailErrorConnector "a.wav" 0 (fun _ => 0) 0).2.1
      "cost failure" rfl,
    (C3_cost_failure_handling stubCostFailErrorConnector "a.wav" 0 (fun _ => 0) 0).2.2
      "cost failure" rfl⟩

end LanguageDetective
